import Mathlib

/-!
Verification development for the Research Aggregation & Caching Engine of
`ai-content-studio` (`backend/research_service.py` and `backend/database.py`).

The Python code is shallowly embedded: pure functions become Lean functions,
stateful code threads explicit state records, machine floats are idealised as
rationals (the scoring arithmetic only adds/multiplies small decimal
constants), wall-clock time is an explicit `Nat` parameter, and code that can
raise an exception returns `Except`.  Text is modelled as Lean `String` /
`List Char`; Python's `str.lower`/whitespace splitting are modelled at the
ASCII level (all inputs exercised here are ASCII).
-/

set_option maxRecDepth 100000

namespace ContentStudio

/-! ## Text utilities (Python `str` operations used by the service) -/

/-- Python `s.lower()` on a character list (ASCII case folding). -/
def lowerChars (l : List Char) : List Char := l.map Char.toLower

/-- Whether `pat` occurs at position `i` of `s`: kernel of `str.find`. -/
def subAt (pat s : List Char) : Bool := pat.isPrefixOf s

/-- First index at which `pat` occurs in `s` — Python `s.find(pat)`,
returning `none` instead of `-1` when absent. -/
def subFind : List Char → List Char → Nat → Option Nat
  | pat, s, i =>
    if subAt pat s then some i
    else
      match s with
      | [] => none
      | _ :: t => subFind pat t (i + 1)

/-- Python `pat in s` (substring containment). -/
def occursSub (pat s : List Char) : Bool := (subFind pat s 0).isSome

/-- Python `s.strip()` (ASCII whitespace). -/
def stripWs (l : List Char) : List Char :=
  ((l.dropWhile Char.isWhitespace).reverse.dropWhile Char.isWhitespace).reverse

/-- Word accumulator behind `splitWs`; `acc` holds the reversed current word. -/
def splitWsAux : List Char → List Char → List (List Char)
  | [], acc => if acc = [] then [] else [acc.reverse]
  | c :: t, acc =>
    if c.isWhitespace then
      if acc = [] then splitWsAux t [] else acc.reverse :: splitWsAux t []
    else splitWsAux t (c :: acc)

/-- Python `s.split()` with no argument: split on runs of whitespace,
producing no empty words. -/
def splitWs (l : List Char) : List (List Char) := splitWsAux l []

/-- Python `str(x).replace("Z", "+00:00")`, used on publication dates. -/
def replaceZ (s : String) : String :=
  ⟨s.data.flatMap (fun c => if c = 'Z' then "+00:00".data else [c])⟩

/-- All position pairs `i < j` of a list, as value pairs — the iteration
space of the nested `for` loops in the proximity bonus. -/
def pairsOf : List α → List (α × α)
  | [] => []
  | x :: r => (r.map (fun y => (x, y))) ++ pairsOf r

/-! ## §4.4 RelevanceScorer — `_calculate_relevance_score_text` -/

/-- The query terms of `_calculate_relevance_score_text`:
`[term.strip() for term in query.lower().split() if len(term.strip()) > 2]`. -/
def queryTermsOf (query : String) : List (List Char) :=
  ((splitWs (lowerChars query.data)).map stripWs).filter (fun s => 2 < s.length)

/-- Distance between the first occurrences of two terms in the text
(`abs(pos1 - pos2)` with `pos = text_lower.find(term)`); the callers guard
on both terms being present. -/
def firstOccDist (t1 t2 textL : List Char) : Nat :=
  ((((subFind t1 textL 0).getD 0 : Int)) - (((subFind t2 textL 0).getD 0 : Int))).natAbs

/-- One iteration of the proximity-bonus loop body: `0.1` when both terms
occur in the text and their first occurrences are within 50 characters. -/
def proximityPair (textL : List Char) (p : List Char × List Char) : ℚ :=
  if occursSub p.1 textL ∧ occursSub p.2 textL ∧ firstOccDist p.1 p.2 textL < 50
  then 1/10 else 0

/-- The accumulated proximity bonus of the nested loops
`for i, term1 in enumerate(query_terms): for term2 in query_terms[i+1:]`. -/
def proximityBonus (terms : List (List Char)) (textL : List Char) : ℚ :=
  ((pairsOf terms).map (proximityPair textL)).sum

/-- Shallow embedding of `_calculate_relevance_score_text(text, query)`
(`research_service.py:309-345`), with Python floats idealised as `ℚ`. -/
def calcRelevanceScoreText (text query : String) : ℚ :=
  if text = "" ∨ query = "" then 0
  else
    let textL := lowerChars text.data
    let terms := queryTermsOf query
    if terms = [] then 1/2
    else
      let score1 : ℚ := if occursSub (lowerChars query.data) textL then 2/5 else 0
      let termMatches := terms.countP (fun t => occursSub t textL)
      let score2 : ℚ := score1 + ((termMatches : ℚ) / (terms.length : ℚ)) * (2/5)
      let score3 : ℚ := score2 + proximityBonus terms textL
      let score4 : ℚ := if text.data.length < 100 then score3 * (4/5) else score3
      min 1 score4

/-- The §4.4 algorithm exactly as the claim words it ("count of **distinct**
query terms occurring in the text / total term count"; "0.1 for every
unordered pair of **distinct** query terms both present…"); compared against
the code's `calcRelevanceScoreText`. -/
def claimedRelevanceScore (text query : String) : ℚ :=
  if text = "" ∨ query = "" then 0
  else
    let textL := lowerChars text.data
    let terms := queryTermsOf query
    if terms = [] then 1/2
    else
      let phrase : ℚ := if occursSub (lowerChars query.data) textL then 2/5 else 0
      let distinctMatched := terms.dedup.countP (fun t => occursSub t textL)
      let ratio : ℚ := ((distinctMatched : ℚ) / (terms.length : ℚ)) * (2/5)
      let pairCount :=
        (pairsOf terms.dedup).countP
          (fun p => p.1 ≠ p.2 ∧ occursSub p.1 textL ∧ occursSub p.2 textL ∧
            firstOccDist p.1 p.2 textL < 50)
      let raw : ℚ := phrase + ratio + (1/10) * (pairCount : ℚ)
      let adjusted : ℚ := if text.data.length < 100 then raw * (4/5) else raw
      max 0 (min 1 adjusted)

/-- The §4.4 algorithm as amended to the code: the term-match fraction counts
query tokens **with multiplicity**, and the proximity bonus ranges over token
**position** pairs `i < j` (repeated tokens contribute additional pairs). -/
def amendedRelevanceScore (text query : String) : ℚ :=
  if text = "" ∨ query = "" then 0
  else
    let textL := lowerChars text.data
    let terms := queryTermsOf query
    if terms = [] then 1/2
    else
      let phrase : ℚ := if occursSub (lowerChars query.data) textL then 2/5 else 0
      let matched := terms.countP (fun t => occursSub t textL)
      let ratio : ℚ := ((matched : ℚ) / (terms.length : ℚ)) * (2/5)
      let pairCount :=
        (pairsOf terms).countP
          (fun p => occursSub p.1 textL ∧ occursSub p.2 textL ∧
            firstOccDist p.1 p.2 textL < 50)
      let raw : ℚ := phrase + ratio + (1/10) * (pairCount : ℚ)
      let adjusted : ℚ := if text.data.length < 100 then raw * (4/5) else raw
      max 0 (min 1 adjusted)

/-! ## MD5 (`hashlib.md5(content.encode()).hexdigest()`)

A direct executable embedding of the MD5 digest, used by
`_generate_cache_key`.  Words are `Nat`s reduced mod `2^32`. -/

/-- Truncated 32-bit addition. -/
def add32 (a b : Nat) : Nat := (a + b) % 4294967296

/-- 32-bit bitwise complement. -/
def not32 (a : Nat) : Nat := a ^^^ 4294967295

/-- 32-bit left rotation (for `x < 2^32`, `0 < s < 32`). -/
def rotl32 (x s : Nat) : Nat := ((x <<< s) % 4294967296) ||| (x >>> (32 - s))

/-- The 64 MD5 sine-derived constants. -/
def md5KTable : List Nat :=
  [0xd76aa478, 0xe8c7b756, 0x242070db, 0xc1bdceee,
   0xf57c0faf, 0x4787c62a, 0xa8304613, 0xfd469501,
   0x698098d8, 0x8b44f7af, 0xffff5bb1, 0x895cd7be,
   0x6b901122, 0xfd987193, 0xa679438e, 0x49b40821,
   0xf61e2562, 0xc040b340, 0x265e5a51, 0xe9b6c7aa,
   0xd62f105d, 0x02441453, 0xd8a1e681, 0xe7d3fbc8,
   0x21e1cde6, 0xc33707d6, 0xf4d50d87, 0x455a14ed,
   0xa9e3e905, 0xfcefa3f8, 0x676f02d9, 0x8d2a4c8a,
   0xfffa3942, 0x8771f681, 0x6d9d6122, 0xfde5380c,
   0xa4beea44, 0x4bdecfa9, 0xf6bb4b60, 0xbebfbc70,
   0x289b7ec6, 0xeaa127fa, 0xd4ef3085, 0x04881d05,
   0xd9d4d039, 0xe6db99e5, 0x1fa27cf8, 0xc4ac5665,
   0xf4292244, 0x432aff97, 0xab9423a7, 0xfc93a039,
   0x655b59c3, 0x8f0ccc92, 0xffeff47d, 0x85845dd1,
   0x6fa87e4f, 0xfe2ce6e0, 0xa3014314, 0x4e0811a1,
   0xf7537e82, 0xbd3af235, 0x2ad7d2bb, 0xeb86d391]

/-- The 64 MD5 per-round left-rotation amounts. -/
def md5STable : List Nat :=
  [7, 12, 17, 22, 7, 12, 17, 22, 7, 12, 17, 22, 7, 12, 17, 22,
   5,  9, 14, 20, 5,  9, 14, 20, 5,  9, 14, 20, 5,  9, 14, 20,
   4, 11, 16, 23, 4, 11, 16, 23, 4, 11, 16, 23, 4, 11, 16, 23,
   6, 10, 15, 21, 6, 10, 15, 21, 6, 10, 15, 21, 6, 10, 15, 21]

/-- One MD5 round step on state `(a, b, c, d)` with message words `m`. -/
def md5Step (m : List Nat) (st : Nat × Nat × Nat × Nat) (i : Nat) :
    Nat × Nat × Nat × Nat :=
  let (a, b, c, d) := st
  let fg : Nat × Nat :=
    if i < 16 then ((b &&& c) ||| ((not32 b) &&& d), i)
    else if i < 32 then ((d &&& b) ||| ((not32 d) &&& c), (5 * i + 1) % 16)
    else if i < 48 then (b ^^^ c ^^^ d, (3 * i + 5) % 16)
    else (c ^^^ (b ||| (not32 d)), (7 * i) % 16)
  let temp := add32 (add32 (add32 a fg.1) (md5KTable.getD i 0)) (m.getD fg.2 0)
  (d, add32 b (rotl32 temp (md5STable.getD i 0)), b, c)

/-- Little-endian 32-bit words of a byte list. -/
def md5Words : List Nat → List Nat
  | b0 :: b1 :: b2 :: b3 :: t =>
    (b0 + 256 * b1 + 65536 * b2 + 16777216 * b3) :: md5Words t
  | _ => []

/-- The MD5 compression function on one 64-byte block. -/
def md5Compress (st : Nat × Nat × Nat × Nat) (block : List Nat) :
    Nat × Nat × Nat × Nat :=
  let m := md5Words block
  let r := (List.range 64).foldl (md5Step m) st
  (add32 st.1 r.1, add32 st.2.1 r.2.1, add32 st.2.2.1 r.2.2.1,
   add32 st.2.2.2 r.2.2.2)

/-- Fold the compression function over `n` consecutive 64-byte blocks. -/
def md5Blocks : Nat → Nat × Nat × Nat × Nat → List Nat → Nat × Nat × Nat × Nat
  | 0, st, _ => st
  | n + 1, st, bytes => md5Blocks n (md5Compress st (bytes.take 64)) (bytes.drop 64)

/-- Little-endian 8-byte encoding of the 64-bit message bit length. -/
def md5LenBytes (n : Nat) : List Nat :=
  (List.range 8).map (fun i => (n >>> (8 * i)) % 256)

/-- MD5 padding: `0x80`, zeros to 56 mod 64, then the 64-bit bit length. -/
def md5Pad (msg : List Nat) : List Nat :=
  let z := (119 - (msg.length % 64)) % 64
  msg ++ [128] ++ List.replicate z 0 ++ md5LenBytes ((8 * msg.length) % (2 ^ 64))

/-- Lowercase hexadecimal digit. -/
def hexDigit (n : Nat) : Char :=
  if n < 10 then Char.ofNat (48 + n) else Char.ofNat (87 + n)

/-- Two lowercase hex digits of a byte. -/
def byteHex (b : Nat) : List Char := [hexDigit (b / 16), hexDigit (b % 16)]

/-- Little-endian lowercase hex of a 32-bit word, as in `hexdigest()`. -/
def wordHexLE (w : Nat) : List Char :=
  byteHex (w % 256) ++ byteHex ((w >>> 8) % 256) ++ byteHex ((w >>> 16) % 256) ++
    byteHex ((w >>> 24) % 256)

/-- `hashlib.md5(bytes).hexdigest()` over a byte list.  The padded message
length is an exact multiple of 64, so the block count is `length / 64`. -/
def md5Hex (msg : List Nat) : String :=
  let padded := md5Pad msg
  let st := md5Blocks (padded.length / 64)
    (0x67452301, 0xefcdab89, 0x98badcfe, 0x10325476) padded
  ⟨wordHexLE st.1 ++ wordHexLE st.2.1 ++ wordHexLE st.2.2.1 ++ wordHexLE st.2.2.2⟩

/-- UTF-8 encoding of one character (`str.encode()`). -/
def utf8Char (c : Char) : List Nat :=
  let n := c.toNat
  if n < 128 then [n]
  else if n < 2048 then [192 + n / 64, 128 + n % 64]
  else if n < 65536 then [224 + n / 4096, 128 + (n / 64) % 64, 128 + n % 64]
  else [240 + n / 262144, 128 + (n / 4096) % 64, 128 + (n / 64) % 64, 128 + n % 64]

/-- `s.encode()`: UTF-8 bytes of a string. -/
def utf8Bytes (s : String) : List Nat := s.data.flatMap utf8Char

/-- `hashlib.md5(s.encode()).hexdigest()`. -/
def md5HexOfString (s : String) : String := md5Hex (utf8Bytes s)

/-! ## JSON values and `json.dumps(..., sort_keys=True)`

`_generate_cache_key` serialises the filters dict with
`json.dumps(filters, sort_keys=True)` (default separators `", "`/`": "`,
`ensure_ascii=True`).  Every dict this service serialises — the
`SearchFilters` shape (`sources`/`data_types`: lists of strings,
`date_from`/`date_to`: strings, `min_relevance`: number) and the connectors'
metadata dicts — is flat: values are scalars or arrays of scalars, never
nested objects.  The JSON model is therefore two-level: `JAtom` scalars and
`JEntry` values.  A Python number is modelled by the decimal text the
serialiser would emit for it. -/

/-- A scalar JSON value. -/
inductive JAtom where
  | str (s : String)
  | num (lit : String)
  | bool (b : Bool)
  | null
deriving DecidableEq

/-- A JSON value appearing in one of the service's dicts: a scalar or an
array of scalars. -/
inductive JEntry where
  | atom (a : JAtom)
  | arr (elems : List JAtom)
deriving DecidableEq

/-- Four lowercase hex digits, for `\uXXXX` escapes. -/
def hex4 (n : Nat) : List Char :=
  [hexDigit (n / 4096 % 16), hexDigit (n / 256 % 16), hexDigit (n / 16 % 16),
   hexDigit (n % 16)]

/-- Python `json` string escaping with `ensure_ascii=True`: printable ASCII
other than `"` and `\` is kept, everything else escaped. -/
def escChar (c : Char) : List Char :=
  if c = '"' then ['\\', '"']
  else if c = '\\' then ['\\', '\\']
  else if c = '\n' then ['\\', 'n']
  else if c = '\t' then ['\\', 't']
  else if c = '\r' then ['\\', 'r']
  else if c = '\x08' then ['\\', 'b']
  else if c = '\x0c' then ['\\', 'f']
  else if c.toNat < 32 ∨ 126 < c.toNat then
    if c.toNat < 65536 then '\\' :: 'u' :: hex4 c.toNat
    else
      let n := c.toNat - 65536
      ('\\' :: 'u' :: hex4 (55296 + n / 1024)) ++
        ('\\' :: 'u' :: hex4 (56320 + n % 1024))
  else [c]

/-- A JSON string literal. -/
def jsonQuote (s : String) : String := ⟨'"' :: (s.data.flatMap escChar ++ ['"'])⟩

/-- `sort_keys=True`: object fields sorted by key (stable; dict keys are
unique anyway). -/
def sortKeyed (kvs : List (String × JEntry)) : List (String × JEntry) :=
  List.insertionSort (fun a b => a.1 ≤ b.1) kvs

/-- Serialisation of a scalar. -/
def dumpAtom : JAtom → String
  | .null => "null"
  | .bool true => "true"
  | .bool false => "false"
  | .num lit => lit
  | .str s => jsonQuote s

/-- Serialisation of a dict value. -/
def dumpEntry : JEntry → String
  | .atom a => dumpAtom a
  | .arr l => "[" ++ String.intercalate ", " (l.map dumpAtom) ++ "]"

/-- `json.dumps(kvs, sort_keys=True)` of a dict, default separators. -/
def dumpObj (kvs : List (String × JEntry)) : String :=
  "\x7b" ++ String.intercalate ", "
    ((sortKeyed kvs).map (fun kv => jsonQuote kv.1 ++ ": " ++ dumpEntry kv.2)) ++
    "\x7d"

/-- Shallow embedding of `_generate_cache_key(query, filters)`
(`research_service.py:32-35`): the MD5 hex digest of
`f"{query}_{json.dumps(filters, sort_keys=True)}"`, with the filters dict as
a JSON object. -/
def generateCacheKey (query : String) (filters : List (String × JEntry)) : String :=
  md5HexOfString (query ++ "_" ++ dumpObj filters)

/-! ## Stable sorting

CPython's `list.sort(key=..., reverse=True)` is a stable sort; a stable
descending sort is uniquely determined by the key order and the input order,
so it is modelled by stable insertion: `insStable le x l` places `x` before
the first element `y` with `le y x` (i.e. whose key does not exceed `x`'s),
and `sortStable` inserts elements right-to-left. -/

/-- Stable insertion: `x` goes before the first `y` such that `le y x`. -/
def insStable (le : α → α → Bool) (x : α) : List α → List α
  | [] => [x]
  | y :: l => if le y x then x :: y :: l else y :: insStable le x l

/-- Stable sort by the Boolean comparison `le`. -/
def sortStable (le : α → α → Bool) (l : List α) : List α :=
  l.foldr (insStable le) []

theorem insStable_perm (le : α → α → Bool) (x : α) (l : List α) :
    List.Perm (insStable le x l) (x :: l) := by
  induction l with
  | nil => rfl
  | cons y t ih =>
    simp only [insStable]
    by_cases h : le y x
    · simp [h]
    · simp only [h, if_neg]
      simpa using (ih.cons y).trans (List.Perm.swap x y t)

theorem sortStable_perm (le : α → α → Bool) (l : List α) :
    List.Perm (sortStable le l) l := by
  induction l with
  | nil => rfl
  | cons a t ih =>
    simpa [sortStable] using (insStable_perm le a (sortStable le t)).trans (ih.cons a)

theorem insStable_pairwise (le : α → α → Bool)
    (htot : ∀ a b, le a b = true ∨ le b a = true)
    (htrans : ∀ a b c, le a b = true → le b c = true → le a c = true)
    (x : α) (l : List α) (hl : l.Pairwise (fun a b => le b a = true)) :
    (insStable le x l).Pairwise (fun a b => le b a = true) := by
  induction l with
  | nil => simp [insStable]
  | cons y t ih =>
    rcases List.pairwise_cons.mp hl with ⟨hy, ht⟩
    simp only [insStable]
    by_cases h : le y x
    · simp only [h, if_pos]
      refine List.pairwise_cons.mpr ⟨?_, hl⟩
      intro z hz
      rcases List.mem_cons.mp hz with rfl | hz
      · exact h
      · exact htrans _ _ _ (hy _ hz) h
    · simp only [h, if_neg]
      refine List.pairwise_cons.mpr ⟨?_, ih ht⟩
      intro z hz
      have hz' : z ∈ x :: t := (insStable_perm le x t).subset hz
      rcases List.mem_cons.mp hz' with rfl | hz''
      · rcases htot z y with hxy | hyx
        · exact hxy
        · exact absurd hyx h
      · exact hy _ hz''

theorem sortStable_pairwise (le : α → α → Bool)
    (htot : ∀ a b, le a b = true ∨ le b a = true)
    (htrans : ∀ a b c, le a b = true → le b c = true → le a c = true)
    (l : List α) :
    (sortStable le l).Pairwise (fun a b => le b a = true) := by
  induction l with
  | nil => simp [sortStable]
  | cons a t ih => exact insStable_pairwise le htot htrans a _ ih

theorem insStable_filter (le : α → α → Bool) (p : α → Bool)
    (hp : ∀ a b, p a = true → p b = true → le a b = true)
    (x : α) (l : List α) :
    (insStable le x l).filter p =
      if p x then x :: l.filter p else l.filter p := by
  induction l with
  | nil => by_cases h : p x <;> simp [insStable, h]
  | cons y t ih =>
    simp only [insStable]
    by_cases h : le y x
    · by_cases hx : p x <;> simp [h, hx, List.filter]
    · by_cases hx : p x
      · have hy : p y = false := by
          by_contra hy'
          exact h (hp y x (by simpa using hy') hx)
        simp [h, List.filter, hy, ih, hx]
      · simp [h, List.filter, ih, hx]

/-- Stability of `sortStable`: the subsequence of elements satisfying a
predicate on which `le` is indifferent (any two such elements may precede
one another) is preserved verbatim — equal-key elements keep arrival order. -/
theorem sortStable_filter (le : α → α → Bool) (p : α → Bool)
    (hp : ∀ a b, p a = true → p b = true → le a b = true)
    (l : List α) : (sortStable le l).filter p = l.filter p := by
  induction l with
  | nil => rfl
  | cons a t ih =>
    have h := insStable_filter le p hp a (sortStable le t)
    by_cases ha : p a
    · simp only [sortStable, List.foldr] at *
      simp [h, ha, ih, List.filter]
    · simp only [sortStable, List.foldr] at *
      simp [h, ha, ih, List.filter]

/-! ## Data model

The records of `research_service.py` / `database.py`.  Scores are `ℚ`
(Python floats), clock readings are explicit parameters bundled in `Env`:
`now` is a seconds-scale instant used for cache expiry, `hourKey` is
`datetime.now().strftime("%Y%m%d%H")`, and `nowIso` is
`datetime.now().isoformat()` (stored verbatim in metadata). -/

/-- A result dict produced by a connector. -/
structure SourceResult where
  title : String
  content : String
  source : String
  url : String
  relevance_score : ℚ
  data_type : String
  metadata : List (String × JEntry)
deriving DecidableEq

/-- The `filters` dict of `search` — the `SearchFilters` shape read by
`_filter_results`/`search`.  A `none` field models an absent key. -/
structure Filters where
  date_from : Option String := none
  date_to : Option String := none
  sources : Option (List String) := none
  data_types : Option (List String) := none
  min_relevance : Option ℚ := none
deriving DecidableEq

/-- Python truthiness of an optional string value (`filters['date_from']`). -/
def optStrTruthy : Option String → Bool
  | some s => s ≠ ""
  | none => false

/-- Python truthiness of `filters.get('sources')` / `.get('data_types')`. -/
def optListTruthy : Option (List String) → Bool
  | some l => l ≠ []
  | none => false

/-- Stand-in for the decimal text Python's `json` emits for a float.  The
claims never depend on its exact form, only on its determinism. -/
def ratLit (q : ℚ) : String := toString q.num ++ "e" ++ toString q.den

/-- The filters dict as a JSON object (insertion order of the API layer;
`sort_keys=True` makes the order irrelevant for the cache key). -/
def filtersToJson (f : Filters) : List (String × JEntry) :=
  (f.date_from.map (fun s => ("date_from", JEntry.atom (.str s)))).toList ++
  (f.date_to.map (fun s => ("date_to", JEntry.atom (.str s)))).toList ++
  (f.sources.map (fun l => ("sources", JEntry.arr (l.map .str)))).toList ++
  (f.data_types.map (fun l => ("data_types", JEntry.arr (l.map .str)))).toList ++
  (f.min_relevance.map (fun q => ("min_relevance", JEntry.atom (.num (ratLit q))))).toList

/-- `_generate_cache_key(query, filters)` as called from `search`. -/
def searchCacheKey (query : String) (f : Filters) : String :=
  generateCacheKey query (filtersToJson f)

/-- The response dict built by `search` (`research_service.py:465-474`). -/
structure SearchResponse where
  query_id : Nat
  query : String
  filters : Filters
  total_results : Nat
  results : List SourceResult
  search_time : String
  sources_searched : List String
  cache_key : String
deriving DecidableEq

/-- A row of `research_queries` (the `filters` TEXT column is modelled
structurally; `id` is the `AUTOINCREMENT` key). -/
structure QueryRow where
  id : Nat
  query_text : String
  filters : Filters
  user_id : Option String
  status : String
deriving DecidableEq

/-- A row of `research_results` (`metadata` TEXT modelled structurally,
`created_at TIMESTAMP DEFAULT CURRENT_TIMESTAMP` as a `Nat` instant). -/
structure ResultRow where
  query_id : Nat
  title : String
  content : String
  source : String
  url : String
  relevance_score : ℚ
  data_type : String
  metadata : List (String × JEntry)
  created_at : Nat
deriving DecidableEq

/-- A row of `research_cache` (`cache_key UNIQUE`, `data` = the cached
response, `expires_at` an instant; rows written by `set_cache` always have
an expiry, so the `expires_at IS NULL` branch of the lookup is vacuous). -/
structure CacheRow where
  cache_key : String
  data : SearchResponse
  expires_at : Nat
deriving DecidableEq

/-- The SQLite database state. -/
structure Db where
  queries : List QueryRow := []
  results : List ResultRow := []
  cache : List CacheRow := []
  nextQueryId : Nat := 1
deriving DecidableEq

/-- Injected failure outcomes for the database calls made by one `search`
invocation (a `true` flag makes the corresponding SQLite call raise). -/
structure DbFailures where
  saveQueryFails : Bool := false
  saveResultsFails : Bool := false
  setCacheFails : Bool := false
  getCacheFails : Bool := false

/-- The orchestration clock readings of one `search` invocation. -/
structure Env where
  now : Nat
  hourKey : String
  nowIso : String

/-! ## `database.py` operations -/

/-- `get_cached_data` (`database.py:121-137`): the row with the key whose
expiry is strictly in the future; `None` otherwise (including on an internal
error, which is caught and converted to `None`). -/
def getCachedData (cache : List CacheRow) (key : String) (now : Nat) :
    Option SearchResponse :=
  (cache.find? (fun r => decide (r.cache_key = key ∧ now < r.expires_at))).map
    (fun r => r.data)

/-- `set_cache` (`database.py:139-151`): `INSERT OR REPLACE` keyed on the
unique `cache_key`, `expires_at = now + timedelta(hours=expires_in_hours)`
(seconds scale). -/
def setCache (cache : List CacheRow) (key : String) (data : SearchResponse)
    (now : Nat) (expires_in_hours : Nat) : List CacheRow :=
  (cache.filter (fun r => !(r.cache_key == key))) ++
    [⟨key, data, now + 3600 * expires_in_hours⟩]

/-- `save_query` (`database.py:81-94`): insert a `pending` row, return
`lastrowid`. -/
def saveQuery (db : Db) (query_text : String) (f : Filters)
    (user_id : Option String) : Nat × Db :=
  (db.nextQueryId,
   { db with
      queries := db.queries ++ [⟨db.nextQueryId, query_text, f, user_id, "pending"⟩]
      nextQueryId := db.nextQueryId + 1 })

/-- `save_results` (`database.py:96-119`): one row per result dict, in list
order, all stamped with the insertion instant. -/
def saveResults (db : Db) (query_id : Nat) (results : List SourceResult)
    (now : Nat) : Db :=
  { db with
     results := db.results ++ results.map (fun r =>
       ⟨query_id, r.title, r.content, r.source, r.url, r.relevance_score,
        r.data_type, r.metadata, now⟩) }

/-- `ORDER BY relevance_score DESC, created_at DESC`: row `b` may precede
row `a` iff `a`'s sort key is at most `b`'s. -/
def rowLe (a b : ResultRow) : Bool :=
  decide (a.relevance_score < b.relevance_score ∨
    (a.relevance_score = b.relevance_score ∧ a.created_at ≤ b.created_at))

/-- The page dict returned by `get_query_results`. -/
structure ResultsPage where
  results : List ResultRow
  total_count : Nat
  page : Nat
  page_size : Nat
  total_pages : Nat
deriving DecidableEq

/-- `get_query_results` (`database.py:153-195`): `COUNT(*)` for the query,
then `ORDER BY relevance_score DESC, created_at DESC LIMIT page_size OFFSET
(page-1)*page_size`, and `total_pages = (total + page_size - 1) //
page_size`. -/
def getQueryResults (dbResults : List ResultRow) (query_id : Nat)
    (page : Nat) (page_size : Nat) : ResultsPage :=
  let offset := (page - 1) * page_size
  let rows := dbResults.filter (fun r => r.query_id == query_id)
  let total_count := rows.length
  let ordered := sortStable rowLe rows
  { results := (ordered.drop offset).take page_size
    total_count := total_count
    page := page
    page_size := page_size
    total_pages := (total_count + page_size - 1) / page_size }

/-! ## `_check_rate_limit` -/

/-- The `self.rate_limits` dict, as a total map defaulting to `0` (the code
inserts `0` for a missing key before comparing). -/
def RateLimits := String → Nat

/-- `_check_rate_limit(source, limit)` (`research_service.py:37-50`) at the
hour bucket `hourKey`: `false` without increment once the counter has
reached `limit`, otherwise increment and `true`. -/
def checkRateLimit (rl : RateLimits) (source : String) (hourKey : String)
    (limit : Nat) : Bool × RateLimits :=
  let source_key := source ++ "_" ++ hourKey
  if limit ≤ rl source_key then (false, rl)
  else (true, fun k => if k = source_key then rl source_key + 1 else rl k)

/-- The outcomes of `n` successive `_check_rate_limit` calls with the same
arguments. -/
def rlCalls (rl : RateLimits) (source : String) (hourKey : String)
    (limit : Nat) : Nat → List Bool × RateLimits
  | 0 => ([], rl)
  | n + 1 =>
    let first := checkRateLimit rl source hourKey limit
    let rest := rlCalls first.2 source hourKey limit n
    (first.1 :: rest.1, rest.2)

/-! ## Source connectors

Each connector's outbound provider calls (arXiv client, PubMed/Google-News
scrapes, Wikipedia client, World-Bank/Census APIs) are injected as the lists
of items the provider delivered before any internal failure; the connectors
then build result dicts from the items exactly as the code does.  Every
provider interaction sits inside a `try/except Exception` in the code, so a
failure contributes no further results — except the arXiv branch, whose
handler appends a fallback error result (`research_service.py:82-93`),
which is why `arxivFailure` is observable while other failures are not. -/

/-- Python `s[:n] + "..." if len(s) > n else s`. -/
def truncateText (s : String) (n : Nat) : String :=
  if n < s.data.length then ⟨s.data.take n⟩ ++ "..." else s

/-- An arXiv paper as delivered by `search.results()`. -/
structure ArxivPaper where
  title : String
  summary : String
  entry_id : String
  published : Option String
  authors : List String
  categories : List String
  doi : Option String

/-- `str` or `null` metadata value for an optional field. -/
def optAtom : Option String → JEntry
  | some s => .atom (.str s)
  | none => .atom .null

/-- The result dict built for one arXiv paper
(`research_service.py:64-80`). -/
def arxivResultOf (query : String) (p : ArxivPaper) : SourceResult :=
  { title := p.title
    content := truncateText p.summary 500
    source := "arXiv"
    url := p.entry_id
    relevance_score := calcRelevanceScoreText (p.title ++ " " ++ p.summary) query
    data_type := "academic"
    metadata :=
      [("publication_date", optAtom p.published),
       ("authors", .arr (p.authors.map .str)),
       ("journal", .atom (.str "arXiv")),
       ("categories", .arr (p.categories.map .str)),
       ("doi", optAtom p.doi)] }

/-- The fallback error result appended when the arXiv search raises
(`research_service.py:85-93`). -/
def arxivErrorResult (query err : String) : SourceResult :=
  { title := "arXiv Search Error for \"" ++ query ++ "\""
    content := "Unable to retrieve arXiv results: " ++ err
    source := "arXiv"
    url := ""
    relevance_score := 1/10
    data_type := "error"
    metadata := [("error", .atom (.str err))] }

/-- A PubMed search hit; `title`/`abstract` are `none` when the
corresponding element is missing, `href` is the title link target. -/
structure PubmedItem where
  title : Option String
  abstract : Option String
  href : String

/-- The result dict built for one PubMed article when its title element is
present (`if title_elem:`, `research_service.py:109-126`). -/
def pubmedResultOf (query nowIso : String) (it : PubmedItem) :
    Option SourceResult :=
  match it.title with
  | none => none
  | some t =>
    let abstract := it.abstract.getD "Abstract not available"
    some
      { title := t
        content := truncateText abstract 400
        source := "PubMed"
        url := "https://pubmed.ncbi.nlm.nih.gov" ++ it.href
        relevance_score := calcRelevanceScoreText (t ++ " " ++ abstract) query
        data_type := "academic"
        metadata :=
          [("publication_date", .atom (.str nowIso)),
           ("source_database", .atom (.str "PubMed"))] }

/-- `_search_academic_sources` (`research_service.py:52-131`), with the
provider outcomes injected: arXiv results (plus the fallback error result
when the arXiv call failed) followed by up to three PubMed results; no
failure escapes the connector. -/
def searchAcademicSources (query nowIso : String) (papers : List ArxivPaper)
    (arxivFailure : Option String) (pubmed : List PubmedItem) :
    List SourceResult :=
  papers.map (arxivResultOf query) ++
    (match arxivFailure with
     | some err => [arxivErrorResult query err]
     | none => []) ++
    (pubmed.take 3).filterMap (pubmedResultOf query nowIso)

/-- A fetched Wikipedia page. -/
structure WikiPage where
  title : String
  summary : String
  url : String
  pageid : Nat
  categories : List String

/-- The per-title outcome of the Wikipedia loop
(`research_service.py:142-186`): a page fetched directly, a page fetched via
the first disambiguation option, or a skip (`PageError` / failed
disambiguation fallback). -/
inductive WikiFetch where
  | direct (p : WikiPage)
  | disambiguated (p : WikiPage)
  | skipped

/-- The result dict built for one fetched Wikipedia page. -/
def wikiResultOf (query nowIso : String) : WikiFetch → Option SourceResult
  | .direct p => some
    { title := p.title
      content := p.summary
      source := "Wikipedia"
      url := p.url
      relevance_score := calcRelevanceScoreText (p.title ++ " " ++ p.summary) query
      data_type := "encyclopedia"
      metadata :=
        [("publication_date", .atom (.str nowIso)),
         ("page_id", .atom (.num (toString p.pageid))),
         ("categories", .arr ((p.categories.take 5).map .str))] }
  | .disambiguated p => some
    { title := p.title
      content := p.summary
      source := "Wikipedia"
      url := p.url
      relevance_score := calcRelevanceScoreText (p.title ++ " " ++ p.summary) query
      data_type := "encyclopedia"
      metadata :=
        [("publication_date", .atom (.str nowIso)),
         ("page_id", .atom (.num (toString p.pageid))),
         ("disambiguation", .atom (.bool true))] }
  | .skipped => none

/-- A Google News RSS item; `title`/`description`/`link`/`pubDate` are the
(possibly missing) child elements, carrying their raw text. -/
structure NewsItem where
  title : Option String
  description : Option String
  link : Option String
  pubDate : Option String

/-- Python `s.strip()` on a string (the `get_text(strip=True)` calls). -/
def stripStr (s : String) : String := ⟨stripWs s.data⟩

/-- The result dict built for one news item when both `title` and
`description` elements are present (`research_service.py:204-223`). -/
def newsResultOf (query nowIso : String) (it : NewsItem) : Option SourceResult :=
  match it.title, it.description with
  | some t, some d => some
    { title := stripStr t
      content := ⟨(stripStr d).data.take 300⟩ ++ "..."
      source := "Google News"
      url := (it.link.map stripStr).getD ""
      relevance_score := calcRelevanceScoreText (t ++ " " ++ d) query
      data_type := "news"
      metadata :=
        [("publication_date", .atom (.str ((it.pubDate.map stripStr).getD nowIso))),
         ("source_type", .atom (.str "news_aggregator"))] }
  | _, _ => none

/-- `_search_web_sources` (`research_service.py:133-228`): up to three
Wikipedia pages then up to three news items; failures contribute nothing. -/
def searchWebSources (query nowIso : String) (wiki : List WikiFetch)
    (news : List NewsItem) : List SourceResult :=
  (wiki.take 3).filterMap (wikiResultOf query nowIso) ++
    (news.take 3).filterMap (newsResultOf query nowIso)

/-- A World Bank indicator dict (fields possibly missing). -/
structure WbIndicator where
  name : Option String
  sourceNote : Option String
  id : Option String
  sourceOrganization : Option String

/-- The result dict built for one World Bank indicator
(`research_service.py:247-262`). -/
def wbResultOf (query nowIso : String) (ind : WbIndicator) : SourceResult :=
  { title := "World Bank: " ++ ind.name.getD "Statistical Indicator"
    content := "Statistical indicator: " ++
      (ind.sourceNote.getD ("World Bank statistical data related to " ++ query))
    source := "World Bank"
    url := "https://data.worldbank.org/indicator/" ++ ind.id.getD ""
    relevance_score :=
      calcRelevanceScoreText (ind.name.getD "" ++ " " ++ ind.sourceNote.getD "") query
    data_type := "statistics"
    metadata :=
      [("indicator_id", optAtom ind.id),
       ("source_organization", optAtom ind.sourceOrganization),
       ("last_updated", .atom (.str nowIso)),
       ("data_type", .atom (.str "economic_indicator"))] }

/-- A US Census dataset dict (fields possibly missing; numeric vintages
carried as their printed text). -/
structure CensusDataset where
  title : Option String
  description : Option String
  c_vintage : Option String
  c_dataset : Option String
  c_geographyLink : Option String

/-- The query-dependent guard on the Census branch
(`research_service.py:269`). -/
def censusQueryApplies (query : String) : Bool :=
  let ql := lowerChars query.data
  occursSub "united states".data ql || occursSub "us ".data ql ||
    occursSub "census".data ql

/-- The dataset relevance filter (`research_service.py:280-285`): some
whitespace token of the lowercased query occurs in the lowercased title or
description. -/
def censusDatasetRelevant (query : String) (d : CensusDataset) : Bool :=
  (splitWs (lowerChars query.data)).any (fun term =>
    occursSub term (lowerChars (d.title.getD "").data) ||
      occursSub term (lowerChars (d.description.getD "").data))

/-- The result dict built for one Census dataset
(`research_service.py:287-302`). -/
def censusResultOf (query nowIso : String) (d : CensusDataset) : SourceResult :=
  { title := "US Census: " ++ d.title.getD "Census Dataset"
    content := d.description.getD "US Census Bureau statistical data"
    source := "US Census Bureau"
    url := "https://api.census.gov/data/" ++ d.c_vintage.getD "" ++ "/" ++
      d.c_dataset.getD ""
    relevance_score :=
      calcRelevanceScoreText (d.title.getD "" ++ " " ++ d.description.getD "") query
    data_type := "statistics"
    metadata :=
      [("vintage", optAtom d.c_vintage),
       ("dataset_id", optAtom d.c_dataset),
       ("last_updated", .atom (.str nowIso)),
       ("geographic_level", optAtom d.c_geographyLink)] }

/-- `_search_statistical_sources` (`research_service.py:230-307`): up to
three World Bank indicators, then — only when the query mentions the US —
up to two relevant datasets out of the first twenty; failures contribute
nothing. -/
def searchStatisticalSources (query nowIso : String) (wb : List WbIndicator)
    (census : List CensusDataset) : List SourceResult :=
  (wb.take 3).map (wbResultOf query nowIso) ++
    (if censusQueryApplies query then
      (((census.take 20).filter (censusDatasetRelevant query)).take 2).map
        (censusResultOf query nowIso)
    else [])

/-- The injected provider deliveries for one `search` invocation. -/
structure ConnEnv where
  arxivPapers : List ArxivPaper := []
  arxivFailure : Option String := none
  pubmedItems : List PubmedItem := []
  wikiFetches : List WikiFetch := []
  newsItems : List NewsItem := []
  wbIndicators : List WbIndicator := []
  censusDatasets : List CensusDataset := []

/-! ## `_filter_results` and the `search` orchestrator

`datetime.fromisoformat` is injected as `parseDate : String → Option Int`
(a parse failure — the caught `except` branches — is `none`; the `Int` is a
point on the timeline). -/

/-- `result.get('metadata', {}).get('publication_date')` followed by the
`if pub_date_str:` truthiness test. -/
def pubDateStr (r : SourceResult) : Option String :=
  match r.metadata.lookup "publication_date" with
  | some (.atom (.str s)) => if s = "" then none else some s
  | _ => none

/-- The date-range pass of `_filter_results`
(`research_service.py:352-373`): unparseable bounds disable the filter;
results with missing or unparseable publication dates are kept. -/
def dateFilterApply (parseDate : String → Option Int)
    (results : List SourceResult) (dfrom dto : String) : List SourceResult :=
  match parseDate dfrom, parseDate dto with
  | some d1, some d2 =>
    results.filter (fun r =>
      match pubDateStr r with
      | some s =>
        match parseDate (replaceZ s) with
        | some d => decide (d1 ≤ d ∧ d ≤ d2)
        | none => true
      | none => true)
  | _, _ => results

/-- The `source_mapping` of `_filter_results` (`research_service.py:378-386`):
a kind maps to its provider names, an unknown entry to itself. -/
def sourceMapping (ty : String) : List String :=
  if ty = "academic" then ["arXiv", "PubMed"]
  else if ty = "web" then ["Wikipedia", "Google News"]
  else if ty = "statistics" then ["World Bank", "US Census Bureau"]
  else [ty]

/-- `_filter_results(results, filters)` (`research_service.py:347-409`). -/
def filterResults (parseDate : String → Option Int)
    (results : List SourceResult) (f : Filters) : List SourceResult :=
  let r1 :=
    if optStrTruthy f.date_from && optStrTruthy f.date_to then
      dateFilterApply parseDate results (f.date_from.getD "") (f.date_to.getD "")
    else results
  let r2 :=
    if optListTruthy f.sources then
      let allowed := (f.sources.getD []).flatMap sourceMapping
      r1.filter (fun r => allowed.contains r.source)
    else r1
  let r3 :=
    if optListTruthy f.data_types then
      r2.filter (fun r => (f.data_types.getD []).contains r.data_type)
    else r2
  match f.min_relevance with
  | some m => r3.filter (fun r => decide (m ≤ r.relevance_score))
  | none => r3

/-- `not filters.get('sources') or kind in filters.get('sources', [])`. -/
def sourceKindEnabled (f : Filters) (kind : String) : Bool :=
  !optListTruthy f.sources || (f.sources.getD []).contains kind

/-- `filtered_results.sort(key=lambda x: x['relevance_score'],
reverse=True)`: stable descending sort by score. -/
def scoreLe (a b : SourceResult) : Bool :=
  decide (a.relevance_score ≤ b.relevance_score)

/-- Stable descending sort by `relevance_score`
(`research_service.py:459`). -/
def sortByScoreDesc (l : List SourceResult) : List SourceResult :=
  sortStable scoreLe l

/-- Shallow embedding of `ResearchService.search(query, filters, user_id)`
(`research_service.py:418-483`), with the provider deliveries `conn`, the
database failure outcomes `dbf` and the clock `env` injected.  Returns the
response (or the propagated exception) together with the final database and
rate-limit states.  The code's `try/except` around the post-cache block
logs and re-raises, so a `save_results` failure propagates; `save_query`
runs before the `try` and its failure propagates as well; `set_cache`
swallows its own failure (`database.py:150-151`). -/
def search (env : Env) (parseDate : String → Option Int) (dbf : DbFailures)
    (conn : ConnEnv) (db : Db) (rl : RateLimits) (query : String)
    (filters : Filters) (user_id : Option String) :
    Except Unit SearchResponse × Db × RateLimits :=
  let cache_key := searchCacheKey query filters
  let cached :=
    if dbf.getCacheFails then none else getCachedData db.cache cache_key env.now
  match cached with
  | some resp => (.ok resp, db, rl)
  | none =>
    if dbf.saveQueryFails then (.error (), db, rl)
    else
      let sq := saveQuery db query filters user_id
      let query_id := sq.1
      let db1 := sq.2
      let acadOn := sourceKindEnabled filters "academic"
      let s1 := if acadOn then checkRateLimit rl "academic" env.hourKey 100
                else (false, rl)
      let acadResults :=
        if acadOn && s1.1 then
          searchAcademicSources query env.nowIso conn.arxivPapers
            conn.arxivFailure conn.pubmedItems
        else []
      let webOn := sourceKindEnabled filters "web"
      let s2 := if webOn then checkRateLimit s1.2 "web" env.hourKey 100
                else (false, s1.2)
      let webResults :=
        if webOn && s2.1 then
          searchWebSources query env.nowIso conn.wikiFetches conn.newsItems
        else []
      let statsOn := sourceKindEnabled filters "statistics"
      let s3 := if statsOn then checkRateLimit s2.2 "statistics" env.hourKey 100
                else (false, s2.2)
      let statsResults :=
        if statsOn && s3.1 then
          searchStatisticalSources query env.nowIso conn.wbIndicators
            conn.censusDatasets
        else []
      let all_results := acadResults ++ webResults ++ statsResults
      let filtered := filterResults parseDate all_results filters
      let sorted := sortByScoreDesc filtered
      if dbf.saveResultsFails then (.error (), db1, s3.2)
      else
        let db2 := saveResults db1 query_id sorted env.now
        let response : SearchResponse :=
          { query_id := query_id
            query := query
            filters := filters
            total_results := sorted.length
            results := sorted.take 20
            search_time := env.nowIso
            sources_searched := ["academic", "web", "statistics"]
            cache_key := cache_key }
        let db3 :=
          if dbf.setCacheFails then db2
          else { db2 with cache := setCache db2.cache cache_key response env.now 6 }
        (.ok response, db3, s3.2)

/-! ## Supporting lemmas -/

theorem sum_tenth_eq_countP (l : List α) (p : α → Prop) [DecidablePred p] :
    (l.map (fun x => if p x then (1/10 : ℚ) else 0)).sum
      = (1/10) * ((l.countP (fun x => decide (p x)) : ℕ) : ℚ) := by
  induction l with
  | nil => simp
  | cons a t ih =>
    simp only [List.map_cons, List.sum_cons, ih, List.countP_cons, decide_eq_true_eq]
    by_cases h : p a
    · simp only [h, if_pos]
      push_cast
      ring
    · simp [h]

theorem proximityBonus_eq (terms : List (List Char)) (textL : List Char) :
    proximityBonus terms textL
      = (1/10) * (((pairsOf terms).countP
          (fun p => decide (occursSub p.1 textL ∧ occursSub p.2 textL ∧
            firstOccDist p.1 p.2 textL < 50)) : ℕ) : ℚ) := by
  unfold proximityBonus proximityPair
  exact sum_tenth_eq_countP (pairsOf terms) _

section ClaimProofs

attribute [local semireducible] Rat.add Rat.mul Rat.inv Rat.sub

/-! ## C1 — relevance score vs the §4.4 algorithm as claimed -/

/-- C1 (counterexample): with the repeated-token query `"cat cat"` against
the text `"catalog"`, the code scores `0.4` (term ratio `2/2` and a
positional proximity pair), while the claimed §4.4 algorithm — distinct
terms for the ratio and distinct-term pairs for the proximity bonus —
scores `0.16`; so the claimed equality fails. -/
theorem C1_counterexample :
    calcRelevanceScoreText "catalog" "cat cat" = 2/5 ∧
    claimedRelevanceScore "catalog" "cat cat" = 4/25 ∧
    calcRelevanceScoreText "catalog" "cat cat" ≠
      claimedRelevanceScore "catalog" "cat cat" := by
  exact ⟨by decide, by decide, by decide⟩

/-- C1 (amended): the relevance score equals the §4.4 algorithm with the
term-match fraction counting query tokens with multiplicity and the
proximity bonus ranging over token position pairs `i < j` (so repeated
tokens contribute extra matches and extra pairs); empty text or query gives
`0.0`, termless queries give `0.5`, the phrase bonus is `0.4`, each
qualifying pair adds `0.1` uncapped, short texts are scaled by `0.8`, and
the result is clipped to `[0, 1]`. -/
theorem C1_theorem (t q : String) :
    calcRelevanceScoreText t q = amendedRelevanceScore t q := by
  unfold calcRelevanceScoreText amendedRelevanceScore
  by_cases h0 : t = "" ∨ q = ""
  · simp only [h0, if_pos]
  · simp only [h0, if_neg, not_false_iff]
    by_cases h1 : queryTermsOf q = []
    · simp [h1]
    · simp only [h1, if_neg, not_false_iff]
      rw [proximityBonus_eq]
      refine (sup_eq_right.mpr ?_).symm
      refine le_inf zero_le_one ?_
      split_ifs <;> positivity

/-! ## C2 — ordering of merged results -/

/-- A 0.9-score Wikipedia result (the claim's tie example). -/
def wikiTie : SourceResult :=
  { title := "W", content := "", source := "Wikipedia", url := ""
    relevance_score := 9/10, data_type := "encyclopedia", metadata := [] }

/-- A 0.9-score arXiv result. -/
def arxivTie : SourceResult :=
  { title := "A", content := "", source := "arXiv", url := ""
    relevance_score := 9/10, data_type := "academic", metadata := [] }

/-- A 0.5-score World Bank result. -/
def wbTie : SourceResult :=
  { title := "B", content := "", source := "World Bank", url := ""
    relevance_score := 1/2, data_type := "statistics", metadata := [] }

/-- C2 (counterexample): the sort of `research_service.py:459` keys only on
`relevance_score` and is stable, so with delivery order
`[Wikipedia, arXiv, World Bank]` and scores `[0.9, 0.9, 0.5]` the two
0.9-score results keep Wikipedia **before** arXiv — not the claimed
lexicographic `arXiv` first — and swapping the delivery order swaps the
output, so the ordering is not independent of connector delivery order. -/
theorem C2_counterexample :
    (sortByScoreDesc [wikiTie, arxivTie, wbTie]).map (fun r => r.source) =
      ["Wikipedia", "arXiv", "World Bank"] ∧
    (sortByScoreDesc [arxivTie, wikiTie, wbTie]).map (fun r => r.source) =
      ["arXiv", "Wikipedia", "World Bank"] := by
  exact ⟨by decide, by decide⟩

/-- C2 (amended): the results list is a permutation of the merged results
sorted descending by `relevanceScore` **only**; the sort is stable, so
equal-score results keep the order in which the connectors' lists were
concatenated (for any score, the equal-score subsequence is preserved
verbatim), and in the claim's example the delivery order
`[Wikipedia, arXiv, World Bank]` stays `Wikipedia` before `arXiv`. -/
theorem C2_theorem :
    (∀ l : List SourceResult, List.Perm (sortByScoreDesc l) l) ∧
    (∀ l : List SourceResult,
      (sortByScoreDesc l).Pairwise
        (fun a b => b.relevance_score ≤ a.relevance_score)) ∧
    (∀ (l : List SourceResult) (c : ℚ),
      (sortByScoreDesc l).filter (fun r => decide (r.relevance_score = c)) =
        l.filter (fun r => decide (r.relevance_score = c))) ∧
    (sortByScoreDesc [wikiTie, arxivTie, wbTie]).map (fun r => r.source) =
      ["Wikipedia", "arXiv", "World Bank"] := by
  refine ⟨fun l => sortStable_perm _ l, fun l => ?_, fun l c => ?_, by decide⟩
  · have htot : ∀ a b : SourceResult, scoreLe a b = true ∨ scoreLe b a = true := by
      intro a b
      rcases le_total a.relevance_score b.relevance_score with h | h
      · exact Or.inl (by simp [scoreLe, h])
      · exact Or.inr (by simp [scoreLe, h])
    have htrans : ∀ a b c : SourceResult,
        scoreLe a b = true → scoreLe b c = true → scoreLe a c = true := by
      intro a b c h1 h2
      simp only [scoreLe, decide_eq_true_eq] at h1 h2 ⊢
      exact le_trans h1 h2
    exact (sortStable_pairwise scoreLe htot htrans l).imp
      (fun hab => by simpa [scoreLe] using hab)
  · refine sortStable_filter scoreLe _ ?_ l
    intro a b ha hb
    simp only [decide_eq_true_eq] at ha hb
    simp [scoreLe, ha, hb]

/-! ## C5 — rate limiter -/

/-- The empty `self.rate_limits` dict of a fresh `ResearchService`. -/
def rlZero : RateLimits := fun _ => 0

theorem range_map_decide_eq_replicate (k n : Nat) :
    (List.range k).map (fun i => decide (i < n)) =
      List.replicate (min k n) true ++ List.replicate (k - n) false := by
  induction k with
  | zero => simp
  | succ k ih =>
    rw [List.range_succ, List.map_append, ih]
    by_cases h : k < n
    · have h1 : min (k + 1) n = k + 1 := by omega
      have h2 : min k n = k := by omega
      have h3 : k + 1 - n = 0 := by omega
      have h4 : k - n = 0 := by omega
      simp [h, h1, h2, h3, h4, List.replicate_succ']
    · have h1 : min (k + 1) n = n := by omega
      have h2 : min k n = n := by omega
      have h3 : k + 1 - n = (k - n) + 1 := by omega
      simp [h, h1, h2, h3, List.replicate_succ']

theorem rlCalls_spec (source h : String) (limit : Nat) :
    ∀ (k : Nat) (rl : RateLimits),
      (rlCalls rl source h limit k).1 =
        (List.range k).map (fun i => decide (rl (source ++ "_" ++ h) + i < limit)) ∧
      (∀ key, (rlCalls rl source h limit k).2 key =
        if key = source ++ "_" ++ h then
          (if limit ≤ rl key then rl key else min (rl key + k) limit)
        else rl key) := by
  intro k
  induction k with
  | zero =>
    intro rl
    refine ⟨by simp [rlCalls], fun key => ?_⟩
    simp only [rlCalls]
    split_ifs with h1 h2
    · subst h1; rfl
    · subst h1; omega
    · rfl
  | succ k ih =>
    intro rl
    by_cases hc : limit ≤ rl (source ++ "_" ++ h)
    · have hfirst : checkRateLimit rl source h limit = (false, rl) := by
        simp [checkRateLimit, hc]
      constructor
      · show (checkRateLimit rl source h limit).1 ::
            (rlCalls (checkRateLimit rl source h limit).2 source h limit k).1 = _
        rw [hfirst]
        rw [List.range_succ_eq_map, List.map_cons, List.map_map, (ih rl).1]
        refine congrArg₂ _ (by symm; simp only [decide_eq_false_iff_not]; omega)
          (List.map_congr_left ?_)
        intro i _
        refine decide_eq_decide.mpr ?_
        omega
      · intro key
        show (rlCalls (checkRateLimit rl source h limit).2 source h limit k).2 key = _
        rw [hfirst, (ih rl).2 key]
        split_ifs with h1 h2
        · rfl
        · subst h1; omega
        · rfl
    · set rl' : RateLimits := fun kk =>
        if kk = source ++ "_" ++ h then rl (source ++ "_" ++ h) + 1 else rl kk
        with hrl'
      have hfirst : checkRateLimit rl source h limit = (true, rl') := by
        simp [checkRateLimit, hc, hrl']
      have hrlk : rl' (source ++ "_" ++ h) = rl (source ++ "_" ++ h) + 1 := by
        simp [hrl']
      constructor
      · show (checkRateLimit rl source h limit).1 ::
            (rlCalls (checkRateLimit rl source h limit).2 source h limit k).1 = _
        rw [hfirst]
        rw [List.range_succ_eq_map, List.map_cons, List.map_map, (ih rl').1, hrlk]
        refine congrArg₂ _ (by simp; omega) (List.map_congr_left ?_)
        intro i _
        refine decide_eq_decide.mpr ?_
        omega
      · intro key
        show (rlCalls (checkRateLimit rl source h limit).2 source h limit k).2 key = _
        rw [hfirst, (ih rl').2 key]
        by_cases h1 : key = source ++ "_" ++ h
        · subst h1
          simp only [if_pos rfl, hrlk]
          split_ifs <;> omega
        · simp [hrl', h1]

/-- Injectivity of the hour bucket in the `f"{source}_{hour_key}"` key. -/
theorem sourceKey_inj (source h1 h2 : String)
    (h : source ++ "_" ++ h1 = source ++ "_" ++ h2) : h1 = h2 := by
  have hd := congrArg String.data h
  simp only [String.data_append] at hd
  have := List.append_cancel_left hd
  exact String.ext this

/-- C5 (counterexample): the claim quantifies over every limit `n`, but with
`limit = 0` every call returns `false` — including the first call of a new
hour bucket, which the claim says "returns true again". -/
theorem C5_counterexample :
    (rlCalls rlZero "web" "2025010100" 0 2).1 = [false, false] ∧
    (checkRateLimit (rlCalls rlZero "web" "2025010100" 0 2).2
      "web" "2025010101" 0).1 = false := by
  exact ⟨by decide, by decide⟩

/-- C5 (amended, requiring `1 ≤ n`): starting from a fresh counter, the
first `n` calls in one hour bucket return `true` and each increments the
counter once (after the `n`-th call the counter is exactly `n`); every
further call in the bucket returns `false` and leaves the counter at `n`;
and the first call in a different hour bucket starts from zero and returns
`true` again. -/
theorem C5_theorem (source h1 h2 : String) (n m : Nat) (hn : 1 ≤ n)
    (hne : h1 ≠ h2) :
    (rlCalls rlZero source h1 n (n + m)).1 =
      List.replicate n true ++ List.replicate m false ∧
    (rlCalls rlZero source h1 n (n + m)).2 (source ++ "_" ++ h1) = n ∧
    (rlCalls rlZero source h1 n n).2 (source ++ "_" ++ h1) = n ∧
    (checkRateLimit (rlCalls rlZero source h1 n (n + m)).2 source h2 n).1 =
      true := by
  have hspec := rlCalls_spec source h1 n (n + m) rlZero
  have hspec' := rlCalls_spec source h1 n n rlZero
  have hz : rlZero (source ++ "_" ++ h1) = 0 := rfl
  refine ⟨?_, ?_, ?_, ?_⟩
  · rw [hspec.1]
    have : (List.range (n + m)).map
          (fun i => decide (rlZero (source ++ "_" ++ h1) + i < n)) =
        (List.range (n + m)).map (fun i => decide (i < n)) := by
      refine List.map_congr_left ?_
      intro i _
      exact decide_eq_decide.mpr (by rw [hz]; omega)
    rw [this, range_map_decide_eq_replicate]
    have h1' : min (n + m) n = n := by omega
    have h2' : n + m - n = m := by omega
    rw [h1', h2']
  · rw [hspec.2]
    simp only [if_pos rfl, hz]
    split_ifs <;> omega
  · rw [hspec'.2]
    simp only [if_pos rfl, hz]
    split_ifs <;> omega
  · have hkey : (source ++ "_" ++ h2) ≠ (source ++ "_" ++ h1) := by
      intro hk
      exact hne (sourceKey_inj source h2 h1 hk).symm
    have hval : (rlCalls rlZero source h1 n (n + m)).2 (source ++ "_" ++ h2) = 0 := by
      rw [hspec.2, if_neg hkey]
      rfl
    have hpos : ¬ (n ≤ 0) := by omega
    simp [checkRateLimit, hval, hpos]

/-- C5 (witness): the claim's own instance — `limit = 3`, three `true`s,
then `false`, counter at `3`, and `true` again in the next bucket. -/
theorem C5_witness :
    (rlCalls rlZero "web" "2025010100" 3 (3 + 1)).1 =
      List.replicate 3 true ++ List.replicate 1 false ∧
    (rlCalls rlZero "web" "2025010100" 3 (3 + 1)).2 ("web" ++ "_" ++ "2025010100") = 3 ∧
    (rlCalls rlZero "web" "2025010100" 3 3).2 ("web" ++ "_" ++ "2025010100") = 3 ∧
    (checkRateLimit (rlCalls rlZero "web" "2025010100" 3 (3 + 1)).2
      "web" "2025010101" 3).1 = true :=
  C5_theorem "web" "2025010100" "2025010101" 3 1 (by decide) (by decide)

/-! ## C6 — cache round-trip, expiry and overwrite -/

/-- C6: `set_cache` then `get_cached_data` with the same key strictly before
the expiry instant returns exactly the stored response; at or after the
expiry instant, or for a key no row carries, the lookup is absent (`None`,
never an error — the embedding is total); and a second `set_cache` for the
same key replaces the first unconditionally (last-write-wins). -/
theorem C6_theorem :
    (∀ (c : List CacheRow) (k : String) (r : SearchResponse) (now ttl tRead : Nat),
      tRead < now + 3600 * ttl →
      getCachedData (setCache c k r now ttl) k tRead = some r) ∧
    (∀ (c : List CacheRow) (k : String) (r : SearchResponse) (now ttl tRead : Nat),
      now + 3600 * ttl ≤ tRead →
      getCachedData (setCache c k r now ttl) k tRead = none) ∧
    (∀ (c : List CacheRow) (k : String) (now : Nat),
      (∀ row ∈ c, row.cache_key ≠ k) → getCachedData c k now = none) ∧
    (∀ (c : List CacheRow) (k : String) (r1 r2 : SearchResponse)
        (n1 t1 n2 t2 : Nat),
      setCache (setCache c k r1 n1 t1) k r2 n2 t2 = setCache c k r2 n2 t2) := by
  have hfilterNone : ∀ (c : List CacheRow) (k : String) (tRead : Nat),
      (c.filter (fun row => !(row.cache_key == k))).find?
        (fun row => decide (row.cache_key = k ∧ tRead < row.expires_at)) = none := by
    intro c k tRead
    refine List.find?_eq_none.mpr ?_
    intro row hrow
    have hne : row.cache_key ≠ k := by
      have := (List.mem_filter.mp hrow).2
      simpa using this
    simp [hne]
  refine ⟨?_, ?_, ?_, ?_⟩
  · intro c k r now ttl tRead hT
    unfold getCachedData setCache
    rw [List.find?_append, hfilterNone c k tRead]
    simp [hT]
  · intro c k r now ttl tRead hT
    unfold getCachedData setCache
    rw [List.find?_append, hfilterNone c k tRead]
    simp
    omega
  · intro c k now hk
    unfold getCachedData
    rw [List.find?_eq_none.mpr ?_]
    · rfl
    · intro row hrow
      simp [hk row hrow]
  · intro c k r1 r2 n1 t1 n2 t2
    unfold setCache
    rw [List.filter_append]
    simp

/-- An arbitrary concrete response used by the cache and cache-hit
scenarios. -/
def respX : SearchResponse :=
  { query_id := 7, query := "q", filters := {}, total_results := 0
    results := [], search_time := "t", sources_searched := [], cache_key := "ck" }

/-- A second concrete response, distinct from `respX`. -/
def respY : SearchResponse :=
  { query_id := 8, query := "q2", filters := {}, total_results := 0
    results := [], search_time := "t", sources_searched := [], cache_key := "ck" }

/-- C6 (witness): the round-trip, expiry, missing-key and overwrite parts of
`C6_theorem` at concrete inputs (ttl one hour: fresh read at `200 < 3700`,
expired read at exactly `3700`). -/
theorem C6_witness :
    getCachedData (setCache [] "k" respX 100 1) "k" 200 = some respX ∧
    getCachedData (setCache [] "k" respX 100 1) "k" 3700 = none ∧
    getCachedData [] "k" 5 = none ∧
    setCache (setCache [] "k" respX 1 1) "k" respY 2 2 = setCache [] "k" respY 2 2 :=
  ⟨C6_theorem.1 [] "k" respX 100 1 200 (by decide),
   C6_theorem.2.1 [] "k" respX 100 1 3700 (by decide),
   C6_theorem.2.2.1 [] "k" 5 (by intro row hrow; cases hrow),
   C6_theorem.2.2.2 [] "k" respX respY 1 1 2 2⟩

/-! ## Shared concrete scenario for the orchestrator claims -/

/-- Whether an `Except` value is a success. -/
def isOkE : Except ε α → Bool
  | .ok _ => true
  | .error _ => false

instance exceptDecEq {ε α : Type} [DecidableEq ε] [DecidableEq α] :
    DecidableEq (Except ε α) := fun a b =>
  match a, b with
  | .ok x, .ok y =>
    if h : x = y then isTrue (by rw [h])
    else isFalse (fun hh => by cases hh; exact h rfl)
  | .error x, .error y =>
    if h : x = y then isTrue (by rw [h])
    else isFalse (fun hh => by cases hh; exact h rfl)
  | .ok _, .error _ => isFalse (fun hh => by cases hh)
  | .error _, .ok _ => isFalse (fun hh => by cases hh)

/-- `datetime.fromisoformat` oracle for scenarios using no date filters. -/
def parseNone : String → Option Int := fun _ => none

/-- Concrete clock readings. -/
def envA : Env := { now := 1000, hourKey := "2025010100", nowIso := "2025-01-01T00:00:00" }

/-- One fetched Wikipedia page. -/
def wikiPageA : WikiPage :=
  { title := "Artificial intelligence", summary := "AI overview.", url := "u1"
    pageid := 11, categories := [] }

/-- A second fetched Wikipedia page. -/
def wikiPageB : WikiPage :=
  { title := "Machine learning", summary := "ML overview.", url := "u2"
    pageid := 12, categories := [] }

/-- The claim scenario: the arXiv provider raises, PubMed delivers nothing,
the web connector delivers two valid Wikipedia results, the statistical
providers deliver nothing. -/
def connA : ConnEnv :=
  { arxivFailure := some "timed out"
    wikiFetches := [.direct wikiPageA, .direct wikiPageB] }

/-- A database whose cache already holds a fresh entry for the scenario's
query (`"ai"` with no filters), expiring at 4000 > `envA.now`. -/
def dbWarm : Db := { cache := [⟨searchCacheKey "ai" {}, respX, 4000⟩] }

/-! ## C3 — connector fault isolation -/

/-- C3 (counterexample): with the academic connector's arXiv call failing
and the web connector returning two valid results, `search` returns **3**
results, not the claimed 2: the arXiv failure is converted to a fallback
error result (`data_type = "error"`, score 0.1), not to an empty list. -/
theorem C3_counterexample :
    (search envA parseNone {} connA {} rlZero "ai" {} none).1.map
        (fun r => (r.total_results,
          r.results.map (fun x => (x.source, x.data_type)))) =
      Except.ok (3, [("Wikipedia", "encyclopedia"), ("Wikipedia", "encyclopedia"),
        ("arXiv", "error")]) := by
  decide

/-- C3 (amended): no connector outcome — provider error, timeout, malformed
or empty delivery — can make `search` raise when the database calls succeed
(fault isolation holds), but a failing arXiv call contributes a one-element
fallback error result rather than an empty list (PubMed, Wikipedia, news and
statistics failures contribute nothing); in the claim's scenario the
response holds the two web results plus the arXiv error placeholder, with
`total_results = 3`. -/
theorem C3_theorem :
    (∀ (env : Env) (pd : String → Option Int) (conn : ConnEnv) (db : Db)
        (rl : RateLimits) (q : String) (f : Filters) (u : Option String),
      isOkE (search env pd {} conn db rl q f u).1 = true) ∧
    (∀ q err, searchAcademicSources q "now" [] (some err) [] =
      [arxivErrorResult q err]) ∧
    (search envA parseNone {} connA {} rlZero "ai" {} none).1.map
        (fun r => (r.total_results,
          r.results.map (fun x => (x.source, x.data_type)))) =
      Except.ok (3, [("Wikipedia", "encyclopedia"), ("Wikipedia", "encyclopedia"),
        ("arXiv", "error")]) := by
  refine ⟨?_, fun q err => rfl, by decide⟩
  intro env pd conn db rl q f u
  simp only [search]
  cases hm : getCachedData db.cache (searchCacheKey q f) env.now with
  | some r => simp [hm, isOkE]
  | none => simp [hm, isOkE]

/-! ## C4 — persistence and cache-write failure handling -/

/-- C4 (counterexample): when `save_results` fails after a successful
search, the exception propagates out of `search` (the `except` block
re-raises) — the in-memory response is **not** returned. -/
theorem C4_counterexample :
    (search envA parseNone { saveResultsFails := true } connA {} rlZero
      "ai" {} none).1 = Except.error () := by
  decide

/-- C4 (amended): on a cache miss, a `set_cache` failure is swallowed — the
response is still returned and only the cache write is lost (the cache is
unchanged) — but a `save_results` failure propagates to the caller as an
exception. -/
theorem C4_theorem (env : Env) (pd : String → Option Int) (conn : ConnEnv)
    (db : Db) (rl : RateLimits) (q : String) (f : Filters) (u : Option String)
    (hm : getCachedData db.cache (searchCacheKey q f) env.now = none) :
    isOkE (search env pd { setCacheFails := true } conn db rl q f u).1 = true ∧
    (search env pd { setCacheFails := true } conn db rl q f u).2.1.cache =
      db.cache ∧
    (search env pd { saveResultsFails := true } conn db rl q f u).1 =
      Except.error () := by
  refine ⟨?_, ?_, ?_⟩
  · simp [search, hm, isOkE]
  · simp [search, hm, saveQuery, saveResults, setCache]
  · simp [search, hm]

/-- C4 (witness): the amended statement at the concrete scenario. -/
theorem C4_witness :
    isOkE (search envA parseNone { setCacheFails := true } connA {} rlZero
      "ai" {} none).1 = true ∧
    (search envA parseNone { setCacheFails := true } connA {} rlZero
      "ai" {} none).2.1.cache = ({} : Db).cache ∧
    (search envA parseNone { saveResultsFails := true } connA {} rlZero
      "ai" {} none).1 = Except.error () :=
  C4_theorem envA parseNone connA {} rlZero "ai" {} none (by decide)

/-! ## C7 — query persistence on hits and misses -/

/-- C7 (counterexample): a cache-hit invocation of `search` returns the
cached response and leaves the database untouched — in particular no Query
row is created (`queries` stays empty), contradicting "on cache hits as
well as cache misses". -/
theorem C7_counterexample :
    (search envA parseNone {} connA dbWarm rlZero "ai" {} none).1 =
      Except.ok respX ∧
    (search envA parseNone {} connA dbWarm rlZero "ai" {} none).2.1.queries =
      [] := by
  exact ⟨by decide, by decide⟩

/-- C7 (amended): a Query row (with the next AUTOINCREMENT id, the query
text, filters, user id and `pending` status) is persisted exactly on
cache-miss invocations; a cache-hit invocation leaves the database
unchanged. -/
theorem C7_theorem (env : Env) (pd : String → Option Int) (conn : ConnEnv)
    (db : Db) (rl : RateLimits) (q : String) (f : Filters) (u : Option String) :
    (getCachedData db.cache (searchCacheKey q f) env.now = none →
      (search env pd {} conn db rl q f u).2.1.queries =
        db.queries ++ [⟨db.nextQueryId, q, f, u, "pending"⟩]) ∧
    (∀ resp, getCachedData db.cache (searchCacheKey q f) env.now = some resp →
      (search env pd {} conn db rl q f u).2.1 = db) := by
  constructor
  · intro hm
    simp [search, hm, saveQuery, saveResults]
  · intro resp hm
    simp [search, hm]

/-- C7 (witness): on the empty database the miss path appends exactly one
`pending` Query row; on the warmed-up database the hit path leaves the
database unchanged. -/
theorem C7_witness :
    (search envA parseNone {} connA {} rlZero "ai" {} none).2.1.queries =
      ({} : Db).queries ++ [⟨({} : Db).nextQueryId, "ai", {}, none, "pending"⟩] ∧
    (search envA parseNone {} connA dbWarm rlZero "ai" {} none).2.1 = dbWarm :=
  ⟨(C7_theorem envA parseNone connA {} rlZero "ai" {} none).1 (by decide),
   (C7_theorem envA parseNone connA dbWarm rlZero "ai" {} none).2 respX (by decide)⟩

/-! ## C10 — `sources_searched` is a constant -/

/-- C10: on every cache-miss search that completes, the response's
`sources_searched` is the constant `['academic', 'web', 'statistics']`,
regardless of `filters.sources` and of which connectors were actually
invoked or rate-limited. -/
theorem C10_theorem (env : Env) (pd : String → Option Int) (dbf : DbFailures)
    (conn : ConnEnv) (db : Db) (rl : RateLimits) (q : String) (f : Filters)
    (u : Option String)
    (hm : (if dbf.getCacheFails then none
           else getCachedData db.cache (searchCacheKey q f) env.now) = none)
    (hq : dbf.saveQueryFails = false) (hr : dbf.saveResultsFails = false) :
    (search env pd dbf conn db rl q f u).1.map
        (fun r => r.sources_searched) =
      Except.ok ["academic", "web", "statistics"] := by
  simp only [search]
  rw [hm]
  simp only [hq, hr, Bool.false_eq_true, if_false]
  rfl

/-- C10 (witness): the constant `sources_searched` at the concrete scenario
— which requests only the web source via `filters.sources`. -/
theorem C10_witness :
    (search envA parseNone {} connA {}
        rlZero "ai" { sources := some ["web"] } none).1.map
        (fun r => r.sources_searched) =
      Except.ok ["academic", "web", "statistics"] :=
  C10_theorem envA parseNone {} connA {} rlZero "ai" { sources := some ["web"] }
    none (by decide) rfl rfl

/-! ## C8 — cache key determinism -/

instance : IsTotal (String × JEntry) (fun a b => a.1 ≤ b.1) :=
  ⟨fun a b => le_total a.1 b.1⟩

instance : IsTrans (String × JEntry) (fun a b => a.1 ≤ b.1) :=
  ⟨fun _ _ _ h1 h2 => le_trans h1 h2⟩

instance : IsAntisymm (String × JEntry) (fun a b => a.1 < b.1) :=
  ⟨fun _ _ h1 h2 => (lt_asymm h1 h2).elim⟩

/-- C8 (counterexample): two semantically identical filter dicts whose
`sources` lists differ only in element order hash to different cache keys
(`json.dumps(..., sort_keys=True)` sorts keys, not list elements); and the
query is hashed verbatim — `"AI"` and `"ai"`, equal under case
normalization, produce different keys. -/
theorem C8_counterexample :
    generateCacheKey "ai" [("sources", .arr [.str "academic", .str "web"])] ≠
      generateCacheKey "ai" [("sources", .arr [.str "web", .str "academic"])] ∧
    generateCacheKey "AI" [] ≠ generateCacheKey "ai" [] := by
  exact ⟨by decide, by decide⟩

/-- C8 (amended): the cache key is the MD5 digest of the verbatim query plus
`json.dumps(filters, sort_keys=True)`; it is deterministic and independent
of the dict's **key** insertion order — two invocations whose query strings
are identical and whose filter dicts are equal as key-value maps (same keys
bound to the same values, in any order) produce identical keys — but list
element order and query spelling are significant. -/
theorem C8_theorem (q : String) (f1 f2 : List (String × JEntry))
    (hperm : List.Perm f1 f2) (hnd : (f1.map Prod.fst).Nodup) :
    generateCacheKey q f1 = generateCacheKey q f2 := by
  have p1 : List.Perm (sortKeyed f1) f1 := List.perm_insertionSort _ f1
  have p2 : List.Perm (sortKeyed f2) f2 := List.perm_insertionSort _ f2
  have p : List.Perm (sortKeyed f1) (sortKeyed f2) :=
    (p1.trans hperm).trans p2.symm
  have hnd2 : (f2.map Prod.fst).Nodup := ((hperm.map Prod.fst).nodup_iff).mp hnd
  have nd1 : ((sortKeyed f1).map Prod.fst).Nodup :=
    ((p1.map Prod.fst).nodup_iff).mpr hnd
  have nd2 : ((sortKeyed f2).map Prod.fst).Nodup :=
    ((p2.map Prod.fst).nodup_iff).mpr hnd2
  have hle1 : (sortKeyed f1).Sorted (fun a b => a.1 ≤ b.1) :=
    List.sorted_insertionSort _ f1
  have hle2 : (sortKeyed f2).Sorted (fun a b => a.1 ≤ b.1) :=
    List.sorted_insertionSort _ f2
  have hne1 : (sortKeyed f1).Pairwise (fun a b => a.1 ≠ b.1) :=
    List.pairwise_map.mp nd1
  have hne2 : (sortKeyed f2).Pairwise (fun a b => a.1 ≠ b.1) :=
    List.pairwise_map.mp nd2
  have hs1 : (sortKeyed f1).Sorted (fun a b => a.1 < b.1) :=
    (hle1.and hne1).imp (fun hab => lt_of_le_of_ne hab.1 hab.2)
  have hs2 : (sortKeyed f2).Sorted (fun a b => a.1 < b.1) :=
    (hle2.and hne2).imp (fun hab => lt_of_le_of_ne hab.1 hab.2)
  have hsorted : sortKeyed f1 = sortKeyed f2 :=
    List.eq_of_perm_of_sorted p hs1 hs2
  unfold generateCacheKey dumpObj
  rw [hsorted]

/-- C8 (witness): the same two-field dict in both insertion orders hashes
identically. -/
theorem C8_witness :
    generateCacheKey "ai" [("b", .atom (.str "2")), ("a", .atom (.str "1"))] =
      generateCacheKey "ai" [("a", .atom (.str "1")), ("b", .atom (.str "2"))] :=
  C8_theorem "ai"
    [("b", JEntry.atom (JAtom.str "2")), ("a", JEntry.atom (JAtom.str "1"))]
    [("a", JEntry.atom (JAtom.str "1")), ("b", JEntry.atom (JAtom.str "2"))]
    (List.Perm.swap ("a", JEntry.atom (JAtom.str "1"))
      ("b", JEntry.atom (JAtom.str "2")) [])
    (by decide)

/-! ## C9 — pagination -/

/-- C9: pages are 1-indexed and zero-overlap: page `p` of size `s` holds
positions `(p-1)·s … (p-1)·s + s - 1` (0-based; i.e. rows `(p-1)·s + 1`
through `min(p·s, totalCount)` 1-based) of the query's persisted rows
ordered by `relevance_score` descending then `created_at` descending;
`total_count` is the row count, and `total_pages` is the least `m` with
`totalCount ≤ s·m`, i.e. `⌈totalCount / s⌉`. -/
theorem C9_theorem (dbResults : List ResultRow) (qid p s : Nat)
    (hp : 1 ≤ p) (hs : 1 ≤ s) :
    (getQueryResults dbResults qid p s).results =
      ((sortStable rowLe (dbResults.filter (fun r => r.query_id == qid))).drop
        ((p - 1) * s)).take s ∧
    (∀ i, i < s →
      (getQueryResults dbResults qid p s).results[i]? =
        (sortStable rowLe
          (dbResults.filter (fun r => r.query_id == qid)))[(p - 1) * s + i]?) ∧
    (getQueryResults dbResults qid p s).results.length =
      min s ((dbResults.filter (fun r => r.query_id == qid)).length -
        (p - 1) * s) ∧
    List.Perm (sortStable rowLe (dbResults.filter (fun r => r.query_id == qid)))
      (dbResults.filter (fun r => r.query_id == qid)) ∧
    (sortStable rowLe (dbResults.filter (fun r => r.query_id == qid))).Pairwise
      (fun a b => b.relevance_score < a.relevance_score ∨
        (b.relevance_score = a.relevance_score ∧ b.created_at ≤ a.created_at)) ∧
    (getQueryResults dbResults qid p s).total_count =
      (dbResults.filter (fun r => r.query_id == qid)).length ∧
    (dbResults.filter (fun r => r.query_id == qid)).length ≤
      s * (getQueryResults dbResults qid p s).total_pages ∧
    (∀ m, (dbResults.filter (fun r => r.query_id == qid)).length ≤ s * m →
      (getQueryResults dbResults qid p s).total_pages ≤ m) := by
  set rows := dbResults.filter (fun r => r.query_id == qid) with hrows
  have hperm : List.Perm (sortStable rowLe rows) rows := sortStable_perm _ _
  have htot : ∀ a b : ResultRow, rowLe a b = true ∨ rowLe b a = true := by
    intro a b
    unfold rowLe
    simp only [decide_eq_true_eq]
    rcases lt_trichotomy a.relevance_score b.relevance_score with h | h | h
    · exact Or.inl (Or.inl h)
    · rcases le_total a.created_at b.created_at with hc | hc
      · exact Or.inl (Or.inr ⟨h, hc⟩)
      · exact Or.inr (Or.inr ⟨h.symm, hc⟩)
    · exact Or.inr (Or.inl h)
  have htrans : ∀ a b c : ResultRow,
      rowLe a b = true → rowLe b c = true → rowLe a c = true := by
    intro a b c h1 h2
    unfold rowLe at h1 h2 ⊢
    simp only [decide_eq_true_eq] at h1 h2 ⊢
    rcases h1 with h1 | ⟨he1, hc1⟩ <;> rcases h2 with h2 | ⟨he2, hc2⟩
    · exact Or.inl (lt_trans h1 h2)
    · exact Or.inl (lt_of_lt_of_le h1 (le_of_eq he2))
    · exact Or.inl (lt_of_le_of_lt (le_of_eq he1) h2)
    · exact Or.inr ⟨he1.trans he2, le_trans hc1 hc2⟩
  have hdiv1 := Nat.div_add_mod
    (rows.length + s - 1) s
  have hdiv2 : (rows.length + s - 1) % s < s := Nat.mod_lt _ (by omega)
  refine ⟨rfl, ?_, ?_, hperm, ?_, rfl, ?_, ?_⟩
  · intro i hi
    show (((sortStable rowLe rows).drop ((p - 1) * s)).take s)[i]? = _
    rw [List.getElem?_take_of_lt hi, List.getElem?_drop]
  · show (((sortStable rowLe rows).drop ((p - 1) * s)).take s).length = _
    rw [List.length_take, List.length_drop, hperm.length_eq]
  · exact (sortStable_pairwise rowLe htot htrans rows).imp
      (fun hab => by simpa [rowLe, decide_eq_true_eq] using hab)
  · show rows.length ≤ s * ((rows.length + s - 1) / s)
    generalize hT : s * ((rows.length + s - 1) / s) = T at hdiv1 ⊢
    omega
  · intro m hm
    show (rows.length + s - 1) / s ≤ m
    by_contra hlt
    push_neg at hlt
    have hmul : s * (m + 1) ≤ s * ((rows.length + s - 1) / s) :=
      Nat.mul_le_mul_left s (by omega)
    rw [Nat.mul_succ] at hmul
    generalize hA : s * m = A at hmul hm
    generalize hB : s * ((rows.length + s - 1) / s) = B at hmul hdiv1
    omega

/-- The claim's pagination instance: 45 persisted rows for query 1, already
in strictly descending score order. -/
def rows45 : List ResultRow :=
  (List.range 45).map (fun k =>
    { query_id := 1, title := "", content := "", source := "", url := ""
      relevance_score := ((45 - k : ℕ) : ℚ), data_type := "", metadata := []
      created_at := 0 })

/-- C9 (witness): with 45 persisted rows, `page=2, pageSize=20` returns the
20 rows at positions 21–40 (here scores 25 down to 6) and `total_pages = 3`. -/
theorem C9_witness :
    (getQueryResults rows45 1 2 20).results =
      ((sortStable rowLe (rows45.filter (fun r => r.query_id == 1))).drop
        ((2 - 1) * 20)).take 20 ∧
    (getQueryResults rows45 1 2 20).results.map (fun r => r.relevance_score) =
      (List.range 20).map (fun i => ((25 - i : ℕ) : ℚ)) ∧
    (getQueryResults rows45 1 2 20).total_count = 45 ∧
    (getQueryResults rows45 1 2 20).total_pages = 3 :=
  ⟨(C9_theorem rows45 1 2 20 (by decide) (by decide)).1, by decide, by decide,
    by decide⟩

end ClaimProofs

end ContentStudio
